import Mathlib

/-!
Shallow embedding of the graphics-XML round-trip flow of
`src/libvirtmanager/src/addhardware.rs` (the Add Hardware dialog of
virt_manager_rs).  The Rust state struct `AddHardwareApp` is modelled by
its graphics-related fields (the other pages' fields are never read or
written by any of the functions below).  The serde XML structures
`DeviceGraphicsXml`, `GlAttr` and `ListenAttr` are carried over field by
field; `Option` fields model the `skip_serializing_if = Option::is_none`
attributes, i.e. presence or absence of the corresponding XML
attribute/element.  `i32` ports are modelled as `Int`: the source only
ever assigns and compares ports, so no overflow behaviour is involved.

The serde serializer (`quick_xml::se::to_string`) is modelled by a
concrete deterministic string builder that emits the fields in their
declaration order and omits `none` fields, matching quick-xml's
element-based output for these derives; character escaping is elided as
no stated property depends on it.  The deserializer
(`quick_xml::de::from_str`) is modelled at the structural level: decoding
the serialized form of a fragment yields the fragment itself (the serde
round-trip contract); hence "encode then decode" is modelled as
`DeviceGraphicsXml.from_state`.
-/

/-- Child element `gl` of the `graphics` element (Rust struct `GlAttr`). -/
structure GlAttr where
  enable : String
deriving Repr, DecidableEq

/-- Child element `listen` of the `graphics` element (Rust struct `ListenAttr`). -/
structure ListenAttr where
  ltype : String
  address : Option String
deriving Repr, DecidableEq

/-- The serde wire structure for the `graphics` element
(Rust struct `DeviceGraphicsXml`). -/
structure DeviceGraphicsXml where
  gtype : String
  passwd : Option String
  gl : Option GlAttr
  rendernode : Option String
  listen : Option ListenAttr
  port : Option Int
deriving Repr, DecidableEq

/-- The graphics-related fields of the Rust state struct `AddHardwareApp`,
plus the status banner.  The remaining fields (storage, network, page
navigation, option lists, temp-file path) are never touched by the
functions embedded here. -/
structure AddHardwareApp where
  gfx_type : String
  gfx_listen_kind : String
  gfx_address_selected : String
  gfx_port_auto : Bool
  gfx_port_value : Int
  gfx_password_enabled : Bool
  gfx_password : String
  gfx_opengl : Bool
  gfx_rendernode_selected : String
  gfx_status : Option String
deriving Repr, DecidableEq

/-- `DeviceGraphicsXml::from_state` (addhardware.rs lines 62-122): the
State-to-XML Encoder at the structure level. -/
def DeviceGraphicsXml.from_state (s : AddHardwareApp) : DeviceGraphicsXml :=
  let gl : Option GlAttr :=
    if s.gfx_type = "spice" then
      some { enable := if s.gfx_opengl then "yes" else "no" }
    else
      none
  let listen : Option ListenAttr :=
    if s.gfx_listen_kind = "none" then
      some { ltype := "none", address := none }
    else
      let addr : Option String :=
        if s.gfx_address_selected = "Default" then none
        else some s.gfx_address_selected
      some { ltype := "address", address := addr }
  let port : Option Int :=
    if s.gfx_listen_kind = "none" then none
    else if s.gfx_port_auto then some (-1)
    else some s.gfx_port_value
  let rendernode : Option String :=
    if s.gfx_opengl then
      if s.gfx_rendernode_selected = "Auto" then none
      else some s.gfx_rendernode_selected
    else
      none
  { gtype := s.gfx_type
    passwd := if s.gfx_password_enabled then some s.gfx_password else none
    gl := gl
    rendernode := rendernode
    listen := listen
    port := port }

/-- One XML element with text content, as quick-xml emits it
(self-closing when the content is empty). -/
def xmlElem (tag content : String) : String :=
  if content = "" then "<" ++ tag ++ "/>"
  else "<" ++ tag ++ ">" ++ content ++ "</" ++ tag ++ ">"

/-- An optional element: omitted when the field is `none`. -/
def optXmlElem (tag : String) : Option String → String
  | some v => xmlElem tag v
  | none => ""

/-- Serialization of the optional `gl` child element. -/
def serializeGl : Option GlAttr → String
  | some g => "<gl>" ++ xmlElem "enable" g.enable ++ "</gl>"
  | none => ""

/-- Serialization of the optional `listen` child element. -/
def serializeListen : Option ListenAttr → String
  | some l => "<listen>" ++ xmlElem "type" l.ltype ++ optXmlElem "address" l.address ++ "</listen>"
  | none => ""

/-- Serialization of the optional `port` field. -/
def serializePort : Option Int → String
  | some p => "<port>" ++ toString p ++ "</port>"
  | none => ""

/-- Model of `quick_xml::se::to_string` on `DeviceGraphicsXml`: fields in
declaration order, `none` fields omitted. -/
def to_xml_string (x : DeviceGraphicsXml) : String :=
  "<graphics>" ++ xmlElem "type" x.gtype ++ optXmlElem "passwd" x.passwd
    ++ serializeGl x.gl ++ optXmlElem "rendernode" x.rendernode
    ++ serializeListen x.listen ++ serializePort x.port ++ "</graphics>"

/-- The XML declaration header prepended by `graphics_xml_string`. -/
def xmlHeader : String := "<?xml version=\"1.0\" encoding=\"UTF-8\"?>\n"

/-- `AddHardwareApp::graphics_xml_string` (addhardware.rs lines 818-832):
serialize the encoded fragment and prepend the XML header when the
serializer output does not already start with one. -/
def AddHardwareApp.graphics_xml_string (s : AddHardwareApp) : String :=
  let t := to_xml_string (DeviceGraphicsXml.from_state s)
  if t.startsWith "<?xml" then t else xmlHeader ++ t

/-- `AddHardwareApp::apply_graphics_from_xml` (addhardware.rs lines
834-880): the Reconciler's merge of a decoded fragment into the current
state, with the source's sequential field-update order (listen before
port, so a present port attribute overrides what the listen rule set). -/
def AddHardwareApp.apply_graphics_from_xml (s : AddHardwareApp) (x : DeviceGraphicsXml) :
    AddHardwareApp :=
  let s := if x.gtype ≠ "" then { s with gfx_type := x.gtype } else s
  let s :=
    match x.listen with
    | some lst =>
      if lst.ltype = "none" then
        { s with gfx_listen_kind := "none"
                 gfx_address_selected := "Default"
                 gfx_port_auto := true }
      else
        { s with gfx_listen_kind := "address"
                 gfx_address_selected := lst.address.getD "Default" }
    | none => s
  let s :=
    match x.port with
    | some p =>
      if p = -1 then { s with gfx_port_auto := true, gfx_port_value := 0 }
      else { s with gfx_port_auto := false, gfx_port_value := p }
    | none => s
  let s :=
    match x.passwd with
    | some p => { s with gfx_password_enabled := true, gfx_password := p }
    | none => { s with gfx_password_enabled := false, gfx_password := "" }
  let s :=
    match x.gl with
    | some gl => { s with gfx_opengl := gl.enable = "yes" }
    | none => { s with gfx_opengl := false }
  { s with gfx_rendernode_selected := x.rendernode.getD "Auto" }

/-- Editor command resolution (addhardware.rs line 770):
`env::var("VISUAL").or_else(|_| env::var("EDITOR")).ok()`, with the two
environment lookups passed in as `Option String`. -/
def resolve_editor (visual editor_var : Option String) : Option String :=
  match visual with
  | some v => some v
  | none => editor_var

/-- Outcome of one run of `launch_graphics_xml_editor`, one constructor
per exit path of the Rust function. -/
inductive LaunchStep where
  | tempCreateFailed (msg : String)
  | tempWriteFailed (msg : String)
  | tempPersistFailed (msg : String)
  | noEditorConfigured
  | editorLaunchFailed (msg : String)
  | spawned (cmd : String) (path : String)
deriving Repr, DecidableEq

/-- `AddHardwareApp::launch_graphics_xml_editor` (addhardware.rs lines
745-816), control flow with the effectful steps' results passed as
parameters: temp-file creation (yielding the path), write, persist, the
two environment variables, and the spawn attempt as a function of the
resolved command and path. -/
def launch_graphics_xml_editor (createRes : Except String String)
    (writeRes persistRes : Except String Unit)
    (visual editor_var : Option String)
    (spawnRes : String → String → Except String Unit) : LaunchStep :=
  match createRes with
  | .error e => .tempCreateFailed e
  | .ok path =>
    match writeRes with
    | .error e => .tempWriteFailed e
    | .ok _ =>
      match persistRes with
      | .error e => .tempPersistFailed e
      | .ok _ =>
        match resolve_editor visual editor_var with
        | some ed =>
          match spawnRes ed path with
          | .ok _ => .spawned ed path
          | .error e => .editorLaunchFailed e
        | none => .noEditorConfigured

/-- The `Message::GraphicsEdited` branch of `AddHardwareApp::update`
(addhardware.rs lines 480-491): on a decoded fragment, merge and set the
success banner; on a decode error, only set the failure banner. -/
def AddHardwareApp.graphics_edited_update (s : AddHardwareApp)
    (result : Except String DeviceGraphicsXml) : AddHardwareApp :=
  match result with
  | .ok devxml =>
    { s.apply_graphics_from_xml devxml with gfx_status := some "Applied changes from XML." }
  | .error e =>
    { s with gfx_status := some ("Failed to apply XML: " ++ e) }

/-- Closed form of the merge: each field of the merged state as a
function of the decoded fragment and the current state, following the
source's sequential updates (listen before port). -/
theorem apply_graphics_from_xml_eq (c : AddHardwareApp) (x : DeviceGraphicsXml) :
    c.apply_graphics_from_xml x =
      { gfx_type := if x.gtype ≠ "" then x.gtype else c.gfx_type
        gfx_listen_kind :=
          match x.listen with
          | some lst => if lst.ltype = "none" then "none" else "address"
          | none => c.gfx_listen_kind
        gfx_address_selected :=
          match x.listen with
          | some lst => if lst.ltype = "none" then "Default" else lst.address.getD "Default"
          | none => c.gfx_address_selected
        gfx_port_auto :=
          match x.port with
          | some p => if p = -1 then true else false
          | none =>
            match x.listen with
            | some lst => if lst.ltype = "none" then true else c.gfx_port_auto
            | none => c.gfx_port_auto
        gfx_port_value :=
          match x.port with
          | some p => if p = -1 then 0 else p
          | none => c.gfx_port_value
        gfx_password_enabled :=
          match x.passwd with
          | some _ => true
          | none => false
        gfx_password :=
          match x.passwd with
          | some p => p
          | none => ""
        gfx_opengl :=
          match x.gl with
          | some gl => gl.enable = "yes"
          | none => false
        gfx_rendernode_selected := x.rendernode.getD "Auto"
        gfx_status := c.gfx_status } := by
  obtain ⟨gt, pw, gl, rn, ls, pt⟩ := x
  cases pw <;> cases gl <;> cases ls <;> cases pt <;>
    simp only [AddHardwareApp.apply_graphics_from_xml] <;> split_ifs <;> rfl

/-- C3: with `listen_mode = none` the encoded fragment carries no `port`
attribute and no `address` attribute and its `listen` child has
`type="none"`; with `listen_mode = address` the `port` attribute is
present and equals `-1` when `port_is_auto` holds, else `port_value`. -/
theorem encode_listen_none_and_port (s : AddHardwareApp) :
    (s.gfx_listen_kind = "none" →
      (DeviceGraphicsXml.from_state s).port = none ∧
      (DeviceGraphicsXml.from_state s).listen = some { ltype := "none", address := none }) ∧
    (s.gfx_listen_kind = "address" →
      (DeviceGraphicsXml.from_state s).port =
        some (if s.gfx_port_auto then -1 else s.gfx_port_value)) := by
  refine ⟨fun h => ?_, fun h => ?_⟩
  · simp [DeviceGraphicsXml.from_state, h]
  · by_cases ha : s.gfx_port_auto <;> simp [DeviceGraphicsXml.from_state, h, ha]

/-- Witness for `encode_listen_none_and_port` at two concrete configs. -/
theorem encode_listen_none_and_port_witness :
    (DeviceGraphicsXml.from_state
      (AddHardwareApp.mk "spice" "none" "127.0.0.1" false 7 false "" false "Auto" none)).port
        = none ∧
    (DeviceGraphicsXml.from_state
      (AddHardwareApp.mk "spice" "none" "127.0.0.1" false 7 false "" false "Auto" none)).listen
        = some { ltype := "none", address := none } ∧
    (DeviceGraphicsXml.from_state
      (AddHardwareApp.mk "vnc" "address" "Default" true 7 false "" false "Auto" none)).port
        = some (-1) :=
  ⟨((encode_listen_none_and_port
      (AddHardwareApp.mk "spice" "none" "127.0.0.1" false 7 false "" false "Auto" none)).1
      rfl).1,
   ((encode_listen_none_and_port
      (AddHardwareApp.mk "spice" "none" "127.0.0.1" false 7 false "" false "Auto" none)).1
      rfl).2,
   ((encode_listen_none_and_port
      (AddHardwareApp.mk "vnc" "address" "Default" true 7 false "" false "Auto" none)).2
      rfl)⟩

/-- C4: the encoder emits a `gl` child element iff `display_type` is
`spice`, with `enable` equal to "yes" exactly when `opengl_enabled`; for
`vnc` no `gl` element is emitted regardless of `opengl_enabled`. -/
theorem encode_gl_iff_spice (s : AddHardwareApp) :
    ((DeviceGraphicsXml.from_state s).gl =
      if s.gfx_type = "spice" then
        some { enable := if s.gfx_opengl then "yes" else "no" }
      else none) ∧
    (s.gfx_type = "vnc" → (DeviceGraphicsXml.from_state s).gl = none) := by
  constructor
  · simp [DeviceGraphicsXml.from_state]
  · intro h
    simp [DeviceGraphicsXml.from_state, h]

/-- Witness for `encode_gl_iff_spice` at a concrete `vnc` config with
`opengl_enabled = true`. -/
theorem encode_gl_iff_spice_witness :
    (DeviceGraphicsXml.from_state
      (AddHardwareApp.mk "vnc" "address" "Default" true 0 false "" true "Auto" none)).gl
        = none :=
  (encode_gl_iff_spice
    (AddHardwareApp.mk "vnc" "address" "Default" true 0 false "" true "Auto" none)).2 rfl

/-- C5: the encoder emits the `rendernode` attribute iff
`opengl_enabled` is true and `render_node` is not the "Auto" sentinel,
and the emitted value is `render_node` itself; the outcome does not
depend on `display_type`. -/
theorem encode_rendernode_iff (s : AddHardwareApp) (t : String) :
    ((DeviceGraphicsXml.from_state s).rendernode =
      if s.gfx_opengl = true ∧ s.gfx_rendernode_selected ≠ "Auto" then
        some s.gfx_rendernode_selected
      else none) ∧
    (DeviceGraphicsXml.from_state { s with gfx_type := t }).rendernode =
      (DeviceGraphicsXml.from_state s).rendernode := by
  constructor
  · by_cases hg : s.gfx_opengl <;>
      by_cases hr : s.gfx_rendernode_selected = "Auto" <;>
      simp [DeviceGraphicsXml.from_state, hg, hr]
  · simp [DeviceGraphicsXml.from_state]

/-- C7: merging adopts `passwd` verbatim when present (enabling the
password, even for the empty string) and disables and clears the
password when absent, whatever the current config held. -/
theorem merge_passwd_rules (c : AddHardwareApp) (x : DeviceGraphicsXml) :
    (∀ p, x.passwd = some p →
      (c.apply_graphics_from_xml x).gfx_password_enabled = true ∧
      (c.apply_graphics_from_xml x).gfx_password = p) ∧
    (x.passwd = none →
      (c.apply_graphics_from_xml x).gfx_password_enabled = false ∧
      (c.apply_graphics_from_xml x).gfx_password = "") := by
  obtain ⟨gt, pw, gl, rn, ls, pt⟩ := x
  constructor
  · rintro p rfl
    cases gl <;> cases ls <;> cases pt <;>
      simp [AddHardwareApp.apply_graphics_from_xml]
  · rintro rfl
    cases gl <;> cases ls <;> cases pt <;>
      simp [AddHardwareApp.apply_graphics_from_xml]

/-- Witness for `merge_passwd_rules`: a present `passwd` (here the empty
string) enables the password, an absent one disables and clears it, at a
current config that had the opposite settings. -/
theorem merge_passwd_rules_witness :
    ((AddHardwareApp.mk "spice" "address" "Default" true 0 false "x" false "Auto" none).apply_graphics_from_xml
      (DeviceGraphicsXml.mk "spice" (some "") none none none none)).gfx_password_enabled = true ∧
    ((AddHardwareApp.mk "spice" "address" "Default" true 0 false "x" false "Auto" none).apply_graphics_from_xml
      (DeviceGraphicsXml.mk "spice" (some "") none none none none)).gfx_password = "" ∧
    ((AddHardwareApp.mk "spice" "address" "Default" true 0 true "secret" false "Auto" none).apply_graphics_from_xml
      (DeviceGraphicsXml.mk "spice" none none none none none)).gfx_password_enabled = false ∧
    ((AddHardwareApp.mk "spice" "address" "Default" true 0 true "secret" false "Auto" none).apply_graphics_from_xml
      (DeviceGraphicsXml.mk "spice" none none none none none)).gfx_password = "" :=
  ⟨((merge_passwd_rules (AddHardwareApp.mk "spice" "address" "Default" true 0 false "x" false "Auto" none)
      (DeviceGraphicsXml.mk "spice" (some "") none none none none)).1 "" rfl).1,
   ((merge_passwd_rules (AddHardwareApp.mk "spice" "address" "Default" true 0 false "x" false "Auto" none)
      (DeviceGraphicsXml.mk "spice" (some "") none none none none)).1 "" rfl).2,
   ((merge_passwd_rules (AddHardwareApp.mk "spice" "address" "Default" true 0 true "secret" false "Auto" none)
      (DeviceGraphicsXml.mk "spice" none none none none none)).2 rfl).1,
   ((merge_passwd_rules (AddHardwareApp.mk "spice" "address" "Default" true 0 true "secret" false "Auto" none)
      (DeviceGraphicsXml.mk "spice" none none none none none)).2 rfl).2⟩

/-- C10: a present `port` attribute other than `-1` (negative values
included) turns auto-port off and stores the integer verbatim; exactly
`-1` turns auto-port on and resets the stored value to 0. -/
theorem merge_port_rules (c : AddHardwareApp) (x : DeviceGraphicsXml) (p : Int)
    (hp : x.port = some p) :
    (p ≠ -1 →
      (c.apply_graphics_from_xml x).gfx_port_auto = false ∧
      (c.apply_graphics_from_xml x).gfx_port_value = p) ∧
    (p = -1 →
      (c.apply_graphics_from_xml x).gfx_port_auto = true ∧
      (c.apply_graphics_from_xml x).gfx_port_value = 0) := by
  obtain ⟨gt, pw, gl, rn, ls, pt⟩ := x
  simp only at hp
  subst hp
  constructor
  · intro hne
    cases gl <;> cases ls <;> cases pw <;>
      simp [AddHardwareApp.apply_graphics_from_xml, hne]
  · rintro rfl
    cases gl <;> cases ls <;> cases pw <;>
      simp [AddHardwareApp.apply_graphics_from_xml]

/-- Witness for `merge_port_rules` at port `-2` (not covered by the
spec's merge rule) and at port `-1`. -/
theorem merge_port_rules_witness :
    ((AddHardwareApp.mk "spice" "address" "Default" true 0 false "" false "Auto" none).apply_graphics_from_xml
      (DeviceGraphicsXml.mk "spice" none none none none (some (-2)))).gfx_port_auto = false ∧
    ((AddHardwareApp.mk "spice" "address" "Default" true 0 false "" false "Auto" none).apply_graphics_from_xml
      (DeviceGraphicsXml.mk "spice" none none none none (some (-2)))).gfx_port_value = -2 ∧
    ((AddHardwareApp.mk "spice" "address" "Default" false 59 false "" false "Auto" none).apply_graphics_from_xml
      (DeviceGraphicsXml.mk "spice" none none none none (some (-1)))).gfx_port_auto = true ∧
    ((AddHardwareApp.mk "spice" "address" "Default" false 59 false "" false "Auto" none).apply_graphics_from_xml
      (DeviceGraphicsXml.mk "spice" none none none none (some (-1)))).gfx_port_value = 0 :=
  ⟨((merge_port_rules (AddHardwareApp.mk "spice" "address" "Default" true 0 false "" false "Auto" none)
      (DeviceGraphicsXml.mk "spice" none none none none (some (-2))) (-2) rfl).1 (by decide)).1,
   ((merge_port_rules (AddHardwareApp.mk "spice" "address" "Default" true 0 false "" false "Auto" none)
      (DeviceGraphicsXml.mk "spice" none none none none (some (-2))) (-2) rfl).1 (by decide)).2,
   ((merge_port_rules (AddHardwareApp.mk "spice" "address" "Default" false 59 false "" false "Auto" none)
      (DeviceGraphicsXml.mk "spice" none none none none (some (-1))) (-1) rfl).2 rfl).1,
   ((merge_port_rules (AddHardwareApp.mk "spice" "address" "Default" false 59 false "" false "Auto" none)
      (DeviceGraphicsXml.mk "spice" none none none none (some (-1))) (-1) rfl).2 rfl).2⟩

/-- C6 counterexample: a fragment whose `listen` element has type
"none" but which also carries `port="5"` does not leave
`port_is_auto = true` — the port rule runs after the listen rule and
overrides it, so the claim as stated is false at this input. -/
theorem merge_listen_none_port_counterexample :
    ((AddHardwareApp.mk "spice" "address" "Default" true 0 false "" false "Auto"
        none).apply_graphics_from_xml
      (DeviceGraphicsXml.mk "" none none none (some (ListenAttr.mk "none" none))
        (some 5))).gfx_port_auto = false := by decide

/-- C6 (amended): a present `listen` of type "none" sets
`listen_mode = none`, resets the address to the "Default" sentinel, and
forces `port_is_auto = true` provided the fragment carries no `port`
attribute other than `-1`; any other `listen` type sets
`listen_mode = address` and adopts the decoded address, defaulting to
the "Default" sentinel when absent. -/
theorem merge_listen_rules (c : AddHardwareApp) (x : DeviceGraphicsXml) (l : ListenAttr)
    (hx : x.listen = some l) :
    (l.ltype = "none" →
      (c.apply_graphics_from_xml x).gfx_listen_kind = "none" ∧
      (c.apply_graphics_from_xml x).gfx_address_selected = "Default" ∧
      ((x.port = none ∨ x.port = some (-1)) →
        (c.apply_graphics_from_xml x).gfx_port_auto = true)) ∧
    (l.ltype ≠ "none" →
      (c.apply_graphics_from_xml x).gfx_listen_kind = "address" ∧
      (c.apply_graphics_from_xml x).gfx_address_selected = l.address.getD "Default") := by
  obtain ⟨lt, la⟩ := l
  constructor
  · intro hn
    replace hn : lt = "none" := hn
    subst hn
    refine ⟨?_, ?_, ?_⟩
    · simp [apply_graphics_from_xml_eq, hx]
    · simp [apply_graphics_from_xml_eq, hx]
    · rintro (h | h) <;> simp [apply_graphics_from_xml_eq, hx, h]
  · intro hn
    replace hn : lt ≠ "none" := hn
    refine ⟨?_, ?_⟩ <;> simp [apply_graphics_from_xml_eq, hx, hn]

/-- Witness for `merge_listen_rules` at a "none" listen with no port
attribute and at an "address" listen carrying an explicit address. -/
theorem merge_listen_rules_witness :
    ((AddHardwareApp.mk "spice" "address" "10.0.0.1" false 5900 false "" false "Auto"
        none).apply_graphics_from_xml
      (DeviceGraphicsXml.mk "spice" none none none (some (ListenAttr.mk "none" none))
        none)).gfx_listen_kind = "none" ∧
    ((AddHardwareApp.mk "spice" "address" "10.0.0.1" false 5900 false "" false "Auto"
        none).apply_graphics_from_xml
      (DeviceGraphicsXml.mk "spice" none none none (some (ListenAttr.mk "none" none))
        none)).gfx_address_selected = "Default" ∧
    ((AddHardwareApp.mk "spice" "address" "10.0.0.1" false 5900 false "" false "Auto"
        none).apply_graphics_from_xml
      (DeviceGraphicsXml.mk "spice" none none none (some (ListenAttr.mk "none" none))
        none)).gfx_port_auto = true ∧
    ((AddHardwareApp.mk "spice" "none" "Default" true 0 false "" false "Auto"
        none).apply_graphics_from_xml
      (DeviceGraphicsXml.mk "spice" none none none
        (some (ListenAttr.mk "address" (some "127.0.0.1"))) none)).gfx_listen_kind
          = "address" ∧
    ((AddHardwareApp.mk "spice" "none" "Default" true 0 false "" false "Auto"
        none).apply_graphics_from_xml
      (DeviceGraphicsXml.mk "spice" none none none
        (some (ListenAttr.mk "address" (some "127.0.0.1"))) none)).gfx_address_selected
          = "127.0.0.1" :=
  ⟨((merge_listen_rules (AddHardwareApp.mk "spice" "address" "10.0.0.1" false 5900 false ""
        false "Auto" none)
      (DeviceGraphicsXml.mk "spice" none none none (some (ListenAttr.mk "none" none)) none)
      (ListenAttr.mk "none" none) rfl).1 rfl).1,
   ((merge_listen_rules (AddHardwareApp.mk "spice" "address" "10.0.0.1" false 5900 false ""
        false "Auto" none)
      (DeviceGraphicsXml.mk "spice" none none none (some (ListenAttr.mk "none" none)) none)
      (ListenAttr.mk "none" none) rfl).1 rfl).2.1,
   ((merge_listen_rules (AddHardwareApp.mk "spice" "address" "10.0.0.1" false 5900 false ""
        false "Auto" none)
      (DeviceGraphicsXml.mk "spice" none none none (some (ListenAttr.mk "none" none)) none)
      (ListenAttr.mk "none" none) rfl).1 rfl).2.2 (Or.inl rfl),
   ((merge_listen_rules (AddHardwareApp.mk "spice" "none" "Default" true 0 false "" false
        "Auto" none)
      (DeviceGraphicsXml.mk "spice" none none none
        (some (ListenAttr.mk "address" (some "127.0.0.1"))) none)
      (ListenAttr.mk "address" (some "127.0.0.1")) rfl).2 (by decide)).1,
   ((merge_listen_rules (AddHardwareApp.mk "spice" "none" "Default" true 0 false "" false
        "Auto" none)
      (DeviceGraphicsXml.mk "spice" none none none
        (some (ListenAttr.mk "address" (some "127.0.0.1"))) none)
      (ListenAttr.mk "address" (some "127.0.0.1")) rfl).2 (by decide)).2⟩

/-- C8: editor resolution prefers `VISUAL` and falls back to `EDITOR`;
with both unset (and the temp-file steps succeeding) the launch flow
ends in the no-editor outcome, for every possible spawn behaviour, and
in particular never in the spawned outcome. -/
theorem no_editor_short_circuit (v c path : String) (e : Option String)
    (spawnRes : String → String → Except String Unit) :
    resolve_editor (some v) e = some v ∧
    resolve_editor none (some c) = some c ∧
    launch_graphics_xml_editor (.ok path) (.ok ()) (.ok ()) none none spawnRes
      = .noEditorConfigured ∧
    (∀ cmd pth, launch_graphics_xml_editor (.ok path) (.ok ()) (.ok ()) none none spawnRes
      ≠ .spawned cmd pth) := by
  refine ⟨rfl, rfl, rfl, fun cmd pth h => ?_⟩
  simp [launch_graphics_xml_editor, resolve_editor] at h

/-- Witness for `no_editor_short_circuit` at concrete strings and a
concrete spawn behaviour. -/
theorem no_editor_short_circuit_witness :
    resolve_editor (some "nano") (some "vi") = some "nano" ∧
    resolve_editor none (some "vi") = some "vi" ∧
    launch_graphics_xml_editor (.ok "/tmp/vmm-graphics-1.xml") (.ok ()) (.ok ()) none none
      (fun _ _ => .ok ()) = .noEditorConfigured ∧
    launch_graphics_xml_editor (.ok "/tmp/vmm-graphics-1.xml") (.ok ()) (.ok ()) none none
      (fun _ _ => .ok ()) ≠ .spawned "nano" "/tmp/vmm-graphics-1.xml" :=
  ⟨(no_editor_short_circuit "nano" "vi" "/tmp/vmm-graphics-1.xml" (some "vi")
      (fun _ _ => .ok ())).1,
   (no_editor_short_circuit "nano" "vi" "/tmp/vmm-graphics-1.xml" (some "vi")
      (fun _ _ => .ok ())).2.1,
   (no_editor_short_circuit "nano" "vi" "/tmp/vmm-graphics-1.xml" none
      (fun _ _ => .ok ())).2.2.1,
   (no_editor_short_circuit "nano" "vi" "/tmp/vmm-graphics-1.xml" none
      (fun _ _ => .ok ())).2.2.2 "nano" "/tmp/vmm-graphics-1.xml"⟩

/-- C9: when the edit cycle completes with a decode error, the update
handler leaves every graphics configuration field unchanged and only
sets the status banner to the failure message. -/
theorem decode_error_leaves_state_unchanged (s : AddHardwareApp) (e : String) :
    (s.graphics_edited_update (.error e)).gfx_type = s.gfx_type ∧
    (s.graphics_edited_update (.error e)).gfx_listen_kind = s.gfx_listen_kind ∧
    (s.graphics_edited_update (.error e)).gfx_address_selected = s.gfx_address_selected ∧
    (s.graphics_edited_update (.error e)).gfx_port_auto = s.gfx_port_auto ∧
    (s.graphics_edited_update (.error e)).gfx_port_value = s.gfx_port_value ∧
    (s.graphics_edited_update (.error e)).gfx_password_enabled = s.gfx_password_enabled ∧
    (s.graphics_edited_update (.error e)).gfx_password = s.gfx_password ∧
    (s.graphics_edited_update (.error e)).gfx_opengl = s.gfx_opengl ∧
    (s.graphics_edited_update (.error e)).gfx_rendernode_selected
      = s.gfx_rendernode_selected ∧
    (s.graphics_edited_update (.error e)).gfx_status
      = some ("Failed to apply XML: " ++ e) :=
  ⟨rfl, rfl, rfl, rfl, rfl, rfl, rfl, rfl, rfl, rfl⟩

/-- C1 counterexample: a config with `listen_mode = none`,
`opengl_enabled = false` and a concrete `render_node`: encoding,
decoding and merging back resets `render_node` to the "Auto" sentinel
(the encoder omitted it because OpenGL was off), a non-identity on a
field other than the two documented ones (address and auto-port, which
were already at their reset values here). -/
theorem roundtrip_resets_rendernode_counterexample :
    ((AddHardwareApp.mk "spice" "none" "Default" true 0 false "" false "renderD128"
        none).apply_graphics_from_xml
      (DeviceGraphicsXml.from_state
        (AddHardwareApp.mk "spice" "none" "Default" true 0 false "" false "renderD128"
          none))).gfx_rendernode_selected
      ≠ (AddHardwareApp.mk "spice" "none" "Default" true 0 false "" false "renderD128"
          none).gfx_rendernode_selected := by decide

/-- C1 (amended): for a config with `listen_mode = none` whose fields
not represented in the encoded form are at their sentinel/cleared values
(`opengl_enabled = false` whenever `display_type` is not spice,
`render_node = "Auto"` whenever `opengl_enabled = false`, and an empty
password whenever `password_enabled = false`), encode-decode-merge into
a copy of itself yields the same config except that the address is
reset to the "Default" sentinel and `port_is_auto` is forced true. -/
theorem roundtrip_listen_none_amended (s : AddHardwareApp)
    (hl : s.gfx_listen_kind = "none")
    (hsp : s.gfx_type ≠ "spice" → s.gfx_opengl = false)
    (hrn : s.gfx_opengl = false → s.gfx_rendernode_selected = "Auto")
    (hpw : s.gfx_password_enabled = false → s.gfx_password = "") :
    s.apply_graphics_from_xml (DeviceGraphicsXml.from_state s) =
      { s with gfx_address_selected := "Default", gfx_port_auto := true } := by
  obtain ⟨t, lk, addr, pauto, pval, pen, pw, gl, rn, st⟩ := s
  replace hl : lk = "none" := hl
  replace hsp : t ≠ "spice" → gl = false := hsp
  replace hrn : gl = false → rn = "Auto" := hrn
  replace hpw : pen = false → pw = "" := hpw
  subst hl
  by_cases ht : t = "spice" <;> cases gl <;> cases pen <;>
    by_cases hrna : rn = "Auto" <;>
    simp_all [apply_graphics_from_xml_eq, DeviceGraphicsXml.from_state]

/-- Witness for `roundtrip_listen_none_amended` at a concrete config
with a password, OpenGL and an explicit render node. -/
theorem roundtrip_listen_none_amended_witness :
    (AddHardwareApp.mk "spice" "none" "10.0.0.1" false 77 true "pw" true "node1"
        none).apply_graphics_from_xml
      (DeviceGraphicsXml.from_state
        (AddHardwareApp.mk "spice" "none" "10.0.0.1" false 77 true "pw" true "node1" none))
      = AddHardwareApp.mk "spice" "none" "Default" true 77 true "pw" true "node1" none :=
  roundtrip_listen_none_amended
    (AddHardwareApp.mk "spice" "none" "10.0.0.1" false 77 true "pw" true "node1" none)
    rfl (fun h => absurd rfl h) (by decide) (by decide)

/-- Fixed point of encode-merge: re-encoding the merged state yields the
same fragment as the first encode, whenever the config is not in the
one divergent situation (a non-spice type with OpenGL on and an
explicit render node, where the encoder emits `rendernode` but the
merge turns OpenGL off). -/
theorem from_state_merge_fixed (s : AddHardwareApp)
    (h : s.gfx_type = "spice" ∨ s.gfx_opengl = false ∨ s.gfx_rendernode_selected = "Auto") :
    DeviceGraphicsXml.from_state (s.apply_graphics_from_xml (DeviceGraphicsXml.from_state s))
      = DeviceGraphicsXml.from_state s := by
  obtain ⟨t, lk, addr, pauto, pval, pen, pw, gl, rn, st⟩ := s
  replace h : t = "spice" ∨ gl = false ∨ rn = "Auto" := h
  by_cases ht : t = "spice" <;> by_cases hlk : lk = "none" <;>
    cases gl <;> cases pen <;> cases pauto <;>
    by_cases haddr : addr = "Default" <;> by_cases hrna : rn = "Auto" <;>
    by_cases hpv : pval = -1 <;>
    simp_all [apply_graphics_from_xml_eq, DeviceGraphicsXml.from_state]

/-- C2: for a config whose `display_type` is one of the two supported
values and which does not combine `vnc` with OpenGL, encode, decode,
merge into the same config, and encode again produces XML text
byte-identical to the first encode. -/
theorem encode_merge_encode_idempotent (s : AddHardwareApp)
    (ht : s.gfx_type = "spice" ∨ s.gfx_type = "vnc")
    (hx : ¬(s.gfx_type = "vnc" ∧ s.gfx_opengl = true)) :
    (s.apply_graphics_from_xml (DeviceGraphicsXml.from_state s)).graphics_xml_string
      = s.graphics_xml_string := by
  have key : DeviceGraphicsXml.from_state
      (s.apply_graphics_from_xml (DeviceGraphicsXml.from_state s))
      = DeviceGraphicsXml.from_state s := by
    refine from_state_merge_fixed s ?_
    rcases ht with ht | ht
    · exact Or.inl ht
    · refine Or.inr (Or.inl ?_)
      by_contra hgl
      exact hx ⟨ht, by simpa using hgl⟩
  simp only [AddHardwareApp.graphics_xml_string, key]

/-- Witness for `encode_merge_encode_idempotent` at a concrete spice
config with OpenGL, a render node, a password and an explicit port. -/
theorem encode_merge_encode_idempotent_witness :
    ((AddHardwareApp.mk "spice" "address" "10.0.0.1" false 5901 true "sec" true "node1"
        none).apply_graphics_from_xml
      (DeviceGraphicsXml.from_state
        (AddHardwareApp.mk "spice" "address" "10.0.0.1" false 5901 true "sec" true "node1"
          none))).graphics_xml_string
      = (AddHardwareApp.mk "spice" "address" "10.0.0.1" false 5901 true "sec" true "node1"
          none).graphics_xml_string :=
  encode_merge_encode_idempotent
    (AddHardwareApp.mk "spice" "address" "10.0.0.1" false 5901 true "sec" true "node1" none)
    (Or.inl rfl) (by decide)
